import Mathlib

/-!
Verification of the MSD Workshop Review App (multisectordynamics/workshop).

The repository ships a DuckDB schema and setup tooling (`notebooks/db_tools.ipynb`)
for four tables (`tbl_log`, `tbl_response`, `tbl_reviewer`, `tbl_source`), a bulk
CSV import, and a Parquet export helper.  The Streamlit application itself
(review submission, review caps, conflict handling) is documented in the README
and the specification but its source is not part of the tree that is embedded
here; those operations are modelled from the specification, as marked on their
doc comments.
-/

/-- SQL column types occurring in the schema of `db_tools.ipynb`. -/
inductive SqlType where
  | integer
  | varchar
  | timestamp
deriving DecidableEq, Repr

/-- A SQL value: NULL or a value of one of the three column types.
Timestamps are abstracted as integers. -/
inductive SqlValue where
  | null
  | intV (i : Int)
  | strV (s : String)
  | tsV (t : Int)
deriving DecidableEq, Repr

/-- One column of a table: its name, its declared type, and whether the DDL
declares it NOT NULL.  The DDL in `db_tools.ipynb` declares no NOT NULL
column anywhere. -/
structure Column where
  name : String
  ty : SqlType
  notNull : Bool
deriving DecidableEq, Repr

/-- A declared foreign-key constraint (none are declared in this schema). -/
structure ForeignKey where
  cols : List String
  refTable : String
  refCols : List String
deriving DecidableEq, Repr

/-- A table schema: columns plus the declared key constraints.  The DDL in
`db_tools.ipynb` declares no PRIMARY KEY, UNIQUE or FOREIGN KEY on any table,
so those lists are empty for all four tables. -/
structure TableSchema where
  name : String
  cols : List Column
  primaryKey : List String
  uniques : List (List String)
  foreignKeys : List ForeignKey
deriving DecidableEq, Repr

/-- `CREATE TABLE tbl_log (reviewer_id INTEGER, document_id INTEGER,
conflict VARCHAR)` from `tbl_schema` in `db_tools.ipynb`. -/
def tbl_log_schema : TableSchema :=
  { name := "tbl_log"
    cols := [⟨"reviewer_id", .integer, false⟩,
             ⟨"document_id", .integer, false⟩,
             ⟨"conflict", .varchar, false⟩]
    primaryKey := []
    uniques := []
    foreignKeys := [] }

/-- `CREATE TABLE tbl_response (...)` from `tbl_schema` in `db_tools.ipynb`. -/
def tbl_response_schema : TableSchema :=
  { name := "tbl_response"
    cols := [⟨"reviewer_id", .integer, false⟩,
             ⟨"reviewer_name", .varchar, false⟩,
             ⟨"document_id", .integer, false⟩,
             ⟨"alignment", .integer, false⟩,
             ⟨"science", .integer, false⟩,
             ⟨"benefits", .integer, false⟩,
             ⟨"comments", .varchar, false⟩,
             ⟨"screening_order", .integer, false⟩]
    primaryKey := []
    uniques := []
    foreignKeys := [] }

/-- `CREATE TABLE tbl_reviewer (reviewer_id INTEGER, reviewer_name VARCHAR)`
from `tbl_schema` in `db_tools.ipynb`. -/
def tbl_reviewer_schema : TableSchema :=
  { name := "tbl_reviewer"
    cols := [⟨"reviewer_id", .integer, false⟩,
             ⟨"reviewer_name", .varchar, false⟩]
    primaryKey := []
    uniques := []
    foreignKeys := [] }

/-- `CREATE TABLE tbl_source (...)` from `tbl_schema` in `db_tools.ipynb`. -/
def tbl_source_schema : TableSchema :=
  { name := "tbl_source"
    cols := [⟨"document_id", .integer, false⟩,
             ⟨"submission_timestamp", .timestamp, false⟩,
             ⟨"email", .varchar, false⟩,
             ⟨"first_name", .varchar, false⟩,
             ⟨"last_name", .varchar, false⟩,
             ⟨"phone", .varchar, false⟩,
             ⟨"institution", .varchar, false⟩,
             ⟨"authors", .varchar, false⟩,
             ⟨"title", .varchar, false⟩,
             ⟨"abstract", .varchar, false⟩,
             ⟨"biosketch", .varchar, false⟩,
             ⟨"leverage_plan", .varchar, false⟩,
             ⟨"student", .varchar, false⟩,
             ⟨"early_career", .varchar, false⟩,
             ⟨"registration_waiver", .varchar, false⟩,
             ⟨"travel_award", .varchar, false⟩,
             ⟨"poster_competition", .varchar, false⟩,
             ⟨"breakout_sessions", .varchar, false⟩]
    primaryKey := []
    uniques := []
    foreignKeys := [] }

/-- A stored row: one SQL value per column, positionally. -/
abbrev Row := List SqlValue

/-- The database built by `tbl_schema`: the contents of the four tables. -/
structure DBState where
  tbl_log : List Row
  tbl_response : List Row
  tbl_reviewer : List Row
  tbl_source : List Row
deriving DecidableEq, Repr

/-- The four tables of the schema. -/
inductive TableId where
  | log
  | response
  | reviewer
  | source
deriving DecidableEq, Repr

/-- The schema of each table. -/
def schemaOf : TableId → TableSchema
  | .log => tbl_log_schema
  | .response => tbl_response_schema
  | .reviewer => tbl_reviewer_schema
  | .source => tbl_source_schema

/-- Current rows of a table. -/
def rowsOf (st : DBState) : TableId → List Row
  | .log => st.tbl_log
  | .response => st.tbl_response
  | .reviewer => st.tbl_reviewer
  | .source => st.tbl_source

/-- Replace the rows of a table. -/
def setRows (st : DBState) : TableId → List Row → DBState
  | .log, rs => { st with tbl_log := rs }
  | .response, rs => { st with tbl_response := rs }
  | .reviewer, rs => { st with tbl_reviewer := rs }
  | .source, rs => { st with tbl_source := rs }

/-- DuckDB value/column compatibility: NULL is accepted by every column, and a
non-NULL value must have the column's type. -/
def valueMatches : SqlValue → SqlType → Bool
  | .null, _ => true
  | .intV _, .integer => true
  | .strV _, .varchar => true
  | .tsV _, .timestamp => true
  | _, _ => false

/-- A row is accepted by a table schema when it has one value per column, each
value has the column's type (or is NULL), and no NOT NULL column holds NULL. -/
def rowWellTyped (s : TableSchema) (r : Row) : Bool :=
  r.length == s.cols.length &&
  (List.zip r s.cols).all
    (fun p => valueMatches p.1 p.2.ty && (!p.2.notNull || !(p.1 == SqlValue.null)))

/-- Project a row onto a list of column names of the schema (positional
lookup of each named column). -/
def keyProj (s : TableSchema) (key : List String) (r : Row) : List SqlValue :=
  key.map (fun k =>
    match s.cols.findIdx? (fun c => c.name == k) with
    | some i => r.getD i SqlValue.null
    | none => SqlValue.null)

/-- A PRIMARY KEY or UNIQUE constraint of the schema rejects the new row when
an existing row agrees with it on the key columns. -/
def uniqueViolated (s : TableSchema) (rows : List Row) (r : Row) : Bool :=
  ((if s.primaryKey.isEmpty then [] else [s.primaryKey]) ++ s.uniques).any
    (fun k => rows.any (fun r0 => keyProj s k r0 == keyProj s k r))

/-- Name lookup for foreign-key targets. -/
def tableIdOf? : String → Option TableId
  | "tbl_log" => some .log
  | "tbl_response" => some .response
  | "tbl_reviewer" => some .reviewer
  | "tbl_source" => some .source
  | _ => none

/-- A declared foreign key is satisfied when the referenced table has a row
agreeing with the new row on the referenced columns. -/
def fkSatisfied (st : DBState) (s : TableSchema) (fk : ForeignKey) (r : Row) : Bool :=
  match tableIdOf? fk.refTable with
  | none => false
  | some t =>
      (rowsOf st t).any
        (fun pr => keyProj (schemaOf t) fk.refCols pr == keyProj s fk.cols r)

/-- Some declared foreign key of the schema rejects the new row. -/
def fkViolated (st : DBState) (s : TableSchema) (r : Row) : Bool :=
  s.foreignKeys.any (fun fk => !fkSatisfied st s fk r)

/-- `INSERT INTO t VALUES (r)`: the insert succeeds (appending the row) unless
the row is ill-typed for the table or a declared key constraint rejects it. -/
def insertRow (st : DBState) (t : TableId) (r : Row) : Option DBState :=
  if rowWellTyped (schemaOf t) r
      && !uniqueViolated (schemaOf t) (rowsOf st t) r
      && !fkViolated st (schemaOf t) r
  then some (setRows st t (rowsOf st t ++ [r]))
  else none

/-- `with duckdb.connect(db_file) as con: con.sql(tbl_schema)`: building the
database creates the four tables, all empty. -/
def buildDatabase : DBState :=
  { tbl_log := [], tbl_response := [], tbl_reviewer := [], tbl_source := [] }

/-- Insert a list of rows one after the other, failing if any insert fails. -/
def insertAll (st : DBState) (t : TableId) : List Row → Option DBState
  | [] => some st
  | r :: rs =>
    match insertRow st t r with
    | none => none
    | some st' => insertAll st' t rs

/-- A data frame read from a CSV file by `pd.read_csv`: a header of column
names and the data rows (values already typed per column by pandas). -/
structure Csv where
  header : List String
  rows : List Row
deriving DecidableEq, Repr

/-- `INSERT INTO t SELECT * FROM df` (`db_tools.ipynb`, bulk CSV import):
the data-frame rows are inserted positionally; the header names play no role. -/
def importCsv (st : DBState) (t : TableId) (csv : Csv) : Option DBState :=
  insertAll st t csv.rows

/-- The starter-data cell of `db_tools.ipynb`: insert `df_source` into
`tbl_source` and then `df_reviewer` into `tbl_reviewer`. -/
def importStarterData (st : DBState) (csvSource csvReviewer : Csv) : Option DBState :=
  match importCsv st .source csvSource with
  | none => none
  | some st' => importCsv st' .reviewer csvReviewer

/-- `SHOW TABLES` on the built database, in the order the notebook records. -/
def showTables : List String :=
  ["tbl_log", "tbl_response", "tbl_reviewer", "tbl_source"]

/-- `SELECT * FROM name`: the rows of the named table (unknown names give no
rows). -/
def tableRows (st : DBState) (name : String) : List Row :=
  match tableIdOf? name with
  | some t => rowsOf st t
  | none => []

/-- The Parquet-export loop of `db_tools.ipynb`: for each table name, `COPY
(SELECT * FROM name) TO 'data_<name>.parquet'`.  The result is the database
as left by the loop, paired with the written files (file name and the rows
it holds). -/
def exportLoop (st : DBState) : List String → DBState × List (String × List Row)
  | [] => (st, [])
  | n :: ns =>
    let file := ("data_" ++ n ++ ".parquet", tableRows st n)
    let rest := exportLoop st ns
    (rest.1, file :: rest.2)

/-- Modelled from the spec: the two hard-coded application settings
`MAX_REVIEWS_PER_DOCUMENT` and `MAX_REVIEWS_PER_REVIEWER` of `app.py`,
which is not part of the embedded tree. -/
structure AppConfig where
  MAX_REVIEWS_PER_DOCUMENT : Nat
  MAX_REVIEWS_PER_REVIEWER : Nat
deriving DecidableEq, Repr

/-- reviewer_id of a `tbl_response` row (column 0). -/
def respReviewer (r : Row) : SqlValue := r.getD 0 SqlValue.null

/-- document_id of a `tbl_response` row (column 2). -/
def respDocument (r : Row) : SqlValue := r.getD 2 SqlValue.null

/-- reviewer_id of a `tbl_log` row (column 0). -/
def logReviewer (r : Row) : SqlValue := r.getD 0 SqlValue.null

/-- document_id of a `tbl_log` row (column 1). -/
def logDocument (r : Row) : SqlValue := r.getD 1 SqlValue.null

/-- document_id of a `tbl_source` row (column 0). -/
def srcDocument (r : Row) : SqlValue := r.getD 0 SqlValue.null

/-- Modelled from the spec: the application's count of responses for a
document, a filtered count over `tbl_response` (`app.py` is not part of the
embedded tree). -/
def countByDocument (st : DBState) (d : Int) : Nat :=
  (st.tbl_response.filter (fun r => respDocument r == SqlValue.intV d)).length

/-- Modelled from the spec: the application's count of responses by a
reviewer, a filtered count over `tbl_response` (`app.py` is not part of the
embedded tree). -/
def countByReviewer (st : DBState) (rv : Int) : Nat :=
  (st.tbl_response.filter (fun r => respReviewer r == SqlValue.intV rv)).length

/-- A `tbl_log` row records a declared conflict for this (reviewer, document)
pair. -/
def conflictLogged (st : DBState) (rv d : Int) : Bool :=
  st.tbl_log.any
    (fun r => logReviewer r == SqlValue.intV rv && logDocument r == SqlValue.intV d)

/-- A `tbl_response` row by this reviewer for this document exists. -/
def reviewedBy (st : DBState) (rv d : Int) : Bool :=
  st.tbl_response.any
    (fun r => respReviewer r == SqlValue.intV rv && respDocument r == SqlValue.intV d)

/-- Modelled from the spec: "fetch next unreviewed document for a reviewer",
skipping "documents with a logged conflict for this reviewer" (`app.py` is not
part of the embedded tree).  The first `tbl_source` document the reviewer has
neither reviewed nor declared a conflict on. -/
def fetchNextDocument (st : DBState) (rv : Int) : Option Int :=
  (st.tbl_source.filterMap (fun r =>
    match srcDocument r with
    | SqlValue.intV d =>
        if !reviewedBy st rv d && !conflictLogged st rv d then some d else none
    | _ => none)).head?

/-- Modelled from the spec: the reviewer action that inserts one
`tbl_response` row, guarded by the per-document and per-reviewer review caps
(simple filtered counts); `app.py` is not part of the embedded tree. -/
def submitResponse (cfg : AppConfig) (st : DBState) (rv : Int) (nm : String)
    (d al sc be : Int) (cm : String) (so : Int) : Option DBState :=
  if countByDocument st d < cfg.MAX_REVIEWS_PER_DOCUMENT
      && countByReviewer st rv < cfg.MAX_REVIEWS_PER_REVIEWER
  then insertRow st .response
    [SqlValue.intV rv, SqlValue.strV nm, SqlValue.intV d, SqlValue.intV al,
     SqlValue.intV sc, SqlValue.intV be, SqlValue.strV cm, SqlValue.intV so]
  else none

/-- Modelled from the spec: the reviewer action that declares a conflict on
the document currently shown to the reviewer, appending one `tbl_log` row
(`app.py` is not part of the embedded tree). -/
def logConflict (st : DBState) (rv d : Int) (c : String) : Option DBState :=
  if fetchNextDocument st rv = some d
  then insertRow st .log [SqlValue.intV rv, SqlValue.intV d, SqlValue.strV c]
  else none

/-- One operation of the application or setup tooling, acting on the database:
bulk CSV import, response submission, conflict declaration, or the Parquet
export. -/
inductive Step (cfg : AppConfig) : DBState → DBState → Prop where
  | importData (st st' : DBState) (cs cr : Csv) :
      importStarterData st cs cr = some st' → Step cfg st st'
  | submit (st st' : DBState) (rv : Int) (nm : String) (d al sc be : Int)
      (cm : String) (so : Int) :
      submitResponse cfg st rv nm d al sc be cm so = some st' → Step cfg st st'
  | declareConflict (st st' : DBState) (rv d : Int) (c : String) :
      logConflict st rv d c = some st' → Step cfg st st'
  | dump (st : DBState) : Step cfg st (exportLoop st showTables).1

/-- Zero or more operations. -/
inductive StepStar (cfg : AppConfig) : DBState → DBState → Prop where
  | refl (st : DBState) : StepStar cfg st st
  | tail (st st' st'' : DBState) :
      StepStar cfg st st' → Step cfg st' st'' → StepStar cfg st st''

/-- A database state reachable from the freshly built database. -/
def Reachable (cfg : AppConfig) (st : DBState) : Prop :=
  StepStar cfg buildDatabase st

/-- The all-NULL row for a table: one NULL per column. -/
def nullRow (t : TableId) : Row :=
  List.replicate (schemaOf t).cols.length SqlValue.null

/-- A value admissible for an INTEGER column: NULL or an integer. -/
def intField (v : SqlValue) : Prop :=
  v = SqlValue.null ∨ ∃ i, v = SqlValue.intV i

/-- A value admissible for a VARCHAR column: NULL or a string. -/
def strField (v : SqlValue) : Prop :=
  v = SqlValue.null ∨ ∃ s, v = SqlValue.strV s

/-- Number of `tbl_log` rows for one (reviewer_id, document_id) pair. -/
def logPairCount (st : DBState) (rv d : Int) : Nat :=
  (st.tbl_log.filter
    (fun r => logReviewer r == SqlValue.intV rv && logDocument r == SqlValue.intV d)).length

/-- A sample `tbl_source` row for document `d`. -/
def sampleSourceRow (d : Int) : Row :=
  [SqlValue.intV d, SqlValue.tsV 0, SqlValue.strV "a@b.org", SqlValue.strV "First",
   SqlValue.strV "Last", SqlValue.strV "555", SqlValue.strV "Inst", SqlValue.strV "Au",
   SqlValue.strV "Title", SqlValue.strV "Abs", SqlValue.strV "Bio", SqlValue.strV "Lev",
   SqlValue.strV "no", SqlValue.strV "no", SqlValue.strV "no", SqlValue.strV "no",
   SqlValue.strV "no", SqlValue.strV "no"]

/-- A sample `tbl_response` row (reviewer 1, document 2). -/
def sampleResponseRow : Row :=
  [SqlValue.intV 1, SqlValue.strV "Reviewer One", SqlValue.intV 2, SqlValue.intV 4,
   SqlValue.intV 5, SqlValue.intV 3, SqlValue.strV "fine", SqlValue.intV 1]

/-- A database that already holds one response row (reviewer 1, document 2). -/
def dbWithResponse : DBState :=
  { tbl_log := [], tbl_response := [sampleResponseRow], tbl_reviewer := [],
    tbl_source := [] }

/-- A database where reviewer 1 has a logged conflict on document 5, and
document 5 is in `tbl_source`. -/
def dbWithConflict : DBState :=
  { tbl_log := [[SqlValue.intV 1, SqlValue.intV 5, SqlValue.strV "advisor"]],
    tbl_response := [], tbl_reviewer := [], tbl_source := [sampleSourceRow 5] }

/-- A reviewer CSV whose two columns are reordered (name first): the name
string lands under the INTEGER `reviewer_id` column. -/
def reorderedReviewerCsv : Csv :=
  { header := ["reviewer_name", "reviewer_id"],
    rows := [[SqlValue.strV "Alice", SqlValue.intV 7]] }

/-- A source row whose third and fourth values are transposed relative to the
schema's `first_name`/`last_name` order. -/
def swappedNamesRow : Row :=
  [SqlValue.intV 9, SqlValue.tsV 0, SqlValue.strV "a@b.org", SqlValue.strV "Last",
   SqlValue.strV "First", SqlValue.strV "555", SqlValue.strV "Inst", SqlValue.strV "Au",
   SqlValue.strV "Title", SqlValue.strV "Abs", SqlValue.strV "Bio", SqlValue.strV "Lev",
   SqlValue.strV "no", SqlValue.strV "no", SqlValue.strV "no", SqlValue.strV "no",
   SqlValue.strV "no", SqlValue.strV "no"]

/-- A source CSV with the `first_name` and `last_name` columns transposed
(both VARCHAR, so every value stays type-compatible positionally). -/
def swappedNamesCsv : Csv :=
  { header := ["document_id", "submission_timestamp", "email", "last_name",
               "first_name", "phone", "institution", "authors", "title", "abstract",
               "biosketch", "leverage_plan", "student", "early_career",
               "registration_waiver", "travel_award", "poster_competition",
               "breakout_sessions"],
    rows := [swappedNamesRow] }

/-- A starter source CSV holding the sample row for document 5. -/
def starterSourceCsv : Csv :=
  { header := ["document_id", "submission_timestamp", "email", "first_name",
               "last_name", "phone", "institution", "authors", "title", "abstract",
               "biosketch", "leverage_plan", "student", "early_career",
               "registration_waiver", "travel_award", "poster_competition",
               "breakout_sessions"],
    rows := [sampleSourceRow 5] }

/-- A starter reviewer CSV holding reviewer 1. -/
def starterReviewerCsv : Csv :=
  { header := ["reviewer_id", "reviewer_name"],
    rows := [[SqlValue.intV 1, SqlValue.strV "Reviewer One"]] }

/-- The database after importing the two starter CSVs into the fresh build. -/
def dbStarter : DBState :=
  { tbl_log := [], tbl_response := [],
    tbl_reviewer := [[SqlValue.intV 1, SqlValue.strV "Reviewer One"]],
    tbl_source := [sampleSourceRow 5] }

/-- The database after reviewer 1 declares a conflict on document 5 in
`dbStarter`. -/
def dbConflicted : DBState :=
  { tbl_log := [[SqlValue.intV 1, SqlValue.intV 5, SqlValue.strV "advisor"]],
    tbl_response := [],
    tbl_reviewer := [[SqlValue.intV 1, SqlValue.strV "Reviewer One"]],
    tbl_source := [sampleSourceRow 5] }

theorem exportLoop_fst (st : DBState) (l : List String) : (exportLoop st l).1 = st := by
  induction l with
  | nil => rfl
  | cons n ns ih => simpa [exportLoop] using ih

theorem rowsOf_setRows (st : DBState) (t t' : TableId) (rs : List Row) :
    rowsOf (setRows st t rs) t' = if t' = t then rs else rowsOf st t' := by
  cases t <;> cases t' <;> simp [setRows, rowsOf]

theorem insertRow_rows (st : DBState) (t : TableId) (r : Row) (st' : DBState)
    (h : insertRow st t r = some st') (t' : TableId) :
    rowsOf st' t' = rowsOf st t' ++ (if t' = t then [r] else []) := by
  unfold insertRow at h
  split at h
  · cases h
    rw [rowsOf_setRows]
    split
    · rename_i heq
      subst heq
      simp
    · simp
  · cases h

theorem insertAll_rows (t : TableId) (rs : List Row) :
    ∀ (st st' : DBState), insertAll st t rs = some st' →
      ∀ t', ∃ a, rowsOf st' t' = rowsOf st t' ++ a := by
  induction rs with
  | nil =>
    intro st st' h t'
    simp only [insertAll] at h
    cases h
    exact ⟨[], by simp⟩
  | cons r rs ih =>
    intro st st' h t'
    simp only [insertAll] at h
    cases hr : insertRow st t r with
    | none => rw [hr] at h; cases h
    | some st1 =>
      rw [hr] at h
      obtain ⟨a, ha⟩ := ih st1 st' h t'
      refine ⟨(if t' = t then [r] else []) ++ a, ?_⟩
      rw [ha, insertRow_rows st t r st1 hr t', List.append_assoc]

theorem insertAll_rows_other (t t' : TableId) (hne : t' ≠ t) (rs : List Row) :
    ∀ (st st' : DBState), insertAll st t rs = some st' →
      rowsOf st' t' = rowsOf st t' := by
  induction rs with
  | nil =>
    intro st st' h
    simp only [insertAll] at h
    cases h
    rfl
  | cons r rs ih =>
    intro st st' h
    simp only [insertAll] at h
    cases hr : insertRow st t r with
    | none => rw [hr] at h; cases h
    | some st1 =>
      rw [hr] at h
      rw [ih st1 st' h, insertRow_rows st t r st1 hr t', if_neg hne]
      simp

theorem step_extends (cfg : AppConfig) (st st' : DBState) (h : Step cfg st st')
    (t : TableId) : ∃ a, rowsOf st' t = rowsOf st t ++ a := by
  cases h
  case importData cs cr hi =>
    unfold importStarterData at hi
    cases hs : importCsv st .source cs with
    | none => rw [hs] at hi; cases hi
    | some st1 =>
      rw [hs] at hi
      obtain ⟨a, ha⟩ := insertAll_rows .source cs.rows st st1 hs t
      obtain ⟨b, hb⟩ := insertAll_rows .reviewer cr.rows st1 st' hi t
      exact ⟨a ++ b, by rw [hb, ha, List.append_assoc]⟩
  case submit rv nm d al sc be cm so hsub =>
    unfold submitResponse at hsub
    split at hsub
    · exact ⟨_, insertRow_rows _ _ _ _ hsub t⟩
    · cases hsub
  case declareConflict rv d c hc =>
    unfold logConflict at hc
    split at hc
    · exact ⟨_, insertRow_rows _ _ _ _ hc t⟩
    · cases hc
  case dump => exact ⟨[], by rw [exportLoop_fst]; simp⟩

theorem stepStar_extends (cfg : AppConfig) (st st' : DBState) (h : StepStar cfg st st')
    (t : TableId) : ∃ a, rowsOf st' t = rowsOf st t ++ a := by
  induction h
  case refl => exact ⟨[], by simp⟩
  case tail st1 st2 hstar hstep ih =>
    obtain ⟨a, ha⟩ := ih
    obtain ⟨b, hb⟩ := step_extends cfg _ _ hstep t
    exact ⟨a ++ b, by rw [hb, ha, List.append_assoc]⟩

theorem fetchNext_not_conflicted (st : DBState) (rv d : Int)
    (h : fetchNextDocument st rv = some d) : conflictLogged st rv d = false := by
  unfold fetchNextDocument at h
  have hmem : d ∈ st.tbl_source.filterMap (fun r =>
      match srcDocument r with
      | SqlValue.intV d0 =>
          if !reviewedBy st rv d0 && !conflictLogged st rv d0 then some d0 else none
      | _ => none) :=
    List.mem_of_mem_head? (by rw [Option.mem_def]; exact h)
  rw [List.mem_filterMap] at hmem
  obtain ⟨r, _, hr⟩ := hmem
  split at hr
  · split at hr
    · rename_i hcond
      cases hr
      simp only [Bool.and_eq_true, Bool.not_eq_true'] at hcond
      exact hcond.2
    · cases hr
  · cases hr

theorem conflictLogged_mono (st st' : DBState) (rv d : Int)
    (hext : ∃ a, st'.tbl_log = st.tbl_log ++ a)
    (h : conflictLogged st rv d = true) : conflictLogged st' rv d = true := by
  obtain ⟨a, ha⟩ := hext
  unfold conflictLogged at h ⊢
  rw [ha, List.any_append, h, Bool.true_or]

/-- C10: running the Parquet export leaves the database unchanged: the loop
only copies `SELECT *` results to files, so the database it leaves behind is
exactly the database it started from. -/
theorem c10_export_leaves_db_unchanged (st : DBState) :
    (exportLoop st showTables).1 = st :=
  exportLoop_fst st showTables

/-- C6: the Parquet export writes, for every table name returned by
`SHOW TABLES`, one file named `data_<table>.parquet` whose contents are
exactly the rows of that table at export time. -/
theorem c6_parquet_export_files (st : DBState) :
    (exportLoop st showTables).2 =
      [("data_tbl_log.parquet", st.tbl_log),
       ("data_tbl_response.parquet", st.tbl_response),
       ("data_tbl_reviewer.parquet", st.tbl_reviewer),
       ("data_tbl_source.parquet", st.tbl_source)] := rfl

/-- C5: no operation of the application or setup tooling updates or deletes an
existing row: every step leaves each of the four tables equal to its old
contents with zero or more rows appended. -/
theorem c5_append_only (cfg : AppConfig) (st st' : DBState) (h : Step cfg st st') :
    (∃ a, st'.tbl_log = st.tbl_log ++ a) ∧
    (∃ a, st'.tbl_response = st.tbl_response ++ a) ∧
    (∃ a, st'.tbl_reviewer = st.tbl_reviewer ++ a) ∧
    (∃ a, st'.tbl_source = st.tbl_source ++ a) :=
  ⟨step_extends cfg st st' h .log, step_extends cfg st st' h .response,
   step_extends cfg st st' h .reviewer, step_extends cfg st st' h .source⟩

theorem c5_append_only_witness :
    (∃ a, dbStarter.tbl_log = buildDatabase.tbl_log ++ a) ∧
    (∃ a, dbStarter.tbl_response = buildDatabase.tbl_response ++ a) ∧
    (∃ a, dbStarter.tbl_reviewer = buildDatabase.tbl_reviewer ++ a) ∧
    (∃ a, dbStarter.tbl_source = buildDatabase.tbl_source ++ a) :=
  c5_append_only ⟨1, 1⟩ buildDatabase dbStarter
    (Step.importData buildDatabase dbStarter starterSourceCsv starterReviewerCsv
      (by decide))

/-- C3: once a `tbl_log` row marks a conflict for a (reviewer, document) pair,
then after any further sequence of operations the document fetched for that
reviewer is never that document. -/
theorem c3_conflict_never_shown_again (cfg : AppConfig) (st st' : DBState)
    (rv d : Int) (hs : StepStar cfg st st') (hc : conflictLogged st rv d = true) :
    fetchNextDocument st' rv ≠ some d := by
  intro hfetch
  have hc' := conflictLogged_mono st st' rv d (stepStar_extends cfg st st' hs .log) hc
  rw [fetchNext_not_conflicted st' rv d hfetch] at hc'
  simp at hc'

theorem c3_conflict_never_shown_again_witness :
    conflictLogged dbWithConflict 1 5 = true ∧
    fetchNextDocument dbWithConflict 1 ≠ some 5 :=
  ⟨by decide,
   c3_conflict_never_shown_again ⟨1, 1⟩ dbWithConflict dbWithConflict 1 5
     (StepStar.refl dbWithConflict) (by decide)⟩

theorem valueMatches_integer_iff (v : SqlValue) :
    valueMatches v SqlType.integer = true ↔ intField v := by
  cases v <;> simp [valueMatches, intField]

theorem valueMatches_varchar_iff (v : SqlValue) :
    valueMatches v SqlType.varchar = true ↔ strField v := by
  cases v <;> simp [valueMatches, strField]

/-- C1: inserting a second `tbl_response` row with the same (reviewer_id,
document_id) pair as an existing row succeeds: the insert appends the row,
and no table of the schema declares a primary-key, uniqueness or foreign-key
constraint that could reject it. -/
theorem c1_duplicate_response_insert_succeeds (st : DBState) (r r' : Row)
    (_hmem : r ∈ st.tbl_response)
    (_hrv : respReviewer r' = respReviewer r)
    (_hdoc : respDocument r' = respDocument r)
    (hty : rowWellTyped tbl_response_schema r' = true) :
    insertRow st .response r' = some (setRows st .response (st.tbl_response ++ [r'])) ∧
    [TableId.log, TableId.response, TableId.reviewer, TableId.source].all
      (fun t => (schemaOf t).primaryKey.isEmpty && (schemaOf t).uniques.isEmpty &&
        (schemaOf t).foreignKeys.isEmpty) = true := by
  refine ⟨?_, by decide⟩
  unfold insertRow
  simp only [schemaOf, rowsOf]
  rw [hty]
  simp [uniqueViolated, fkViolated, tbl_response_schema]

theorem c1_duplicate_response_insert_succeeds_witness :
    insertRow dbWithResponse .response sampleResponseRow =
      some (setRows dbWithResponse .response
        (dbWithResponse.tbl_response ++ [sampleResponseRow])) ∧
    [TableId.log, TableId.response, TableId.reviewer, TableId.source].all
      (fun t => (schemaOf t).primaryKey.isEmpty && (schemaOf t).uniques.isEmpty &&
        (schemaOf t).foreignKeys.isEmpty) = true :=
  c1_duplicate_response_insert_succeeds dbWithResponse sampleResponseRow
    sampleResponseRow (by decide) rfl rfl (by decide)

/-- C9: no column of any of the four tables is declared NOT NULL, and the
all-NULL row is accepted by every table in every database state. -/
theorem c9_all_columns_nullable (st : DBState) (t : TableId) :
    ((schemaOf t).cols.all (fun c => !c.notNull)) = true ∧
    insertRow st t (nullRow t) = some (setRows st t (rowsOf st t ++ [nullRow t])) := by
  constructor
  · cases t <;> decide
  · unfold insertRow
    have hty : rowWellTyped (schemaOf t) (nullRow t) = true := by
      cases t <;> decide
    have hu : uniqueViolated (schemaOf t) (rowsOf st t) (nullRow t) = false := by
      cases t <;>
        simp [uniqueViolated, schemaOf, tbl_log_schema, tbl_response_schema,
          tbl_reviewer_schema, tbl_source_schema]
    have hf : fkViolated st (schemaOf t) (nullRow t) = false := by
      cases t <;>
        simp [fkViolated, schemaOf, tbl_log_schema, tbl_response_schema,
          tbl_reviewer_schema, tbl_source_schema]
    rw [hty, hu, hf]
    simp

/-- C8 is refuted as stated: the reviewer CSV with its two columns reordered
(name first) is NOT inserted without error: the name string lands under the
INTEGER reviewer_id column and the insert fails. -/
theorem c8_counterexample_reordered_reviewer_csv_fails :
    importCsv buildDatabase .reviewer reorderedReviewerCsv = none := by decide

/-- C8 (amended): the bulk CSV import matches columns positionally and ignores
the CSV's header names entirely; a reordered CSV whose values stay positionally
type-compatible (two VARCHAR columns transposed) is inserted without error,
with the values landing in the wrong fields (`first_name` holds the last
name). -/
theorem c8_positional_csv_import (st : DBState) (t : TableId)
    (h1 h2 : List String) (rows : List Row) :
    importCsv st t { header := h1, rows := rows } =
      importCsv st t { header := h2, rows := rows } ∧
    importCsv buildDatabase .source swappedNamesCsv =
      some (setRows buildDatabase .source [swappedNamesRow]) ∧
    keyProj tbl_source_schema ["first_name", "last_name"] swappedNamesRow =
      [SqlValue.strV "Last", SqlValue.strV "First"] :=
  ⟨rfl, by decide, by decide⟩

/-- C7: a row is accepted by the `tbl_response` schema exactly when it
consists of a reviewer id, a reviewer display name, a document id, three
integer score fields (alignment, science, benefits), one free-text comments
field and one integer ordering field (screening_order). -/
theorem c7_response_row_shape (r : Row) :
    rowWellTyped tbl_response_schema r = true ↔
    ∃ rid nm did al sc be cm so,
      r = [rid, nm, did, al, sc, be, cm, so] ∧
      intField rid ∧ strField nm ∧ intField did ∧ intField al ∧ intField sc ∧
      intField be ∧ strField cm ∧ intField so := by
  rcases r with _ | ⟨rid, _ | ⟨nm, _ | ⟨did, _ | ⟨al, _ | ⟨sc, _ | ⟨be, _ | ⟨cm, _ | ⟨so, _ | ⟨x, rest⟩⟩⟩⟩⟩⟩⟩⟩⟩ <;>
    simp [rowWellTyped, tbl_response_schema, valueMatches_integer_iff,
      valueMatches_varchar_iff]
  constructor
  · intro h
    exact ⟨rid, nm, did, al, sc, be, cm, so, ⟨rfl, rfl, rfl, rfl, rfl, rfl, rfl, rfl⟩, h⟩
  · rintro ⟨a, b, c, d, e, f, g, k, ⟨rfl, rfl, rfl, rfl, rfl, rfl, rfl, rfl⟩, hh⟩
    exact hh

theorem importStarterData_frame (st st' : DBState) (cs cr : Csv)
    (h : importStarterData st cs cr = some st') :
    st'.tbl_response = st.tbl_response ∧ st'.tbl_log = st.tbl_log := by
  unfold importStarterData at h
  cases hs : importCsv st .source cs with
  | none => rw [hs] at h; cases h
  | some st1 =>
    rw [hs] at h
    have e1 := insertAll_rows_other .source .response (by decide) cs.rows st st1 hs
    have e2 := insertAll_rows_other .reviewer .response (by decide) cr.rows st1 st' h
    have e3 := insertAll_rows_other .source .log (by decide) cs.rows st st1 hs
    have e4 := insertAll_rows_other .reviewer .log (by decide) cr.rows st1 st' h
    exact ⟨e2.trans e1, e4.trans e3⟩

theorem countByDocument_append (st st' : DBState) (rs : List Row)
    (h : st'.tbl_response = st.tbl_response ++ rs) (d : Int) :
    countByDocument st' d = countByDocument st d +
      (rs.filter (fun r => respDocument r == SqlValue.intV d)).length := by
  unfold countByDocument
  rw [h, List.filter_append, List.length_append]

theorem countByReviewer_append (st st' : DBState) (rs : List Row)
    (h : st'.tbl_response = st.tbl_response ++ rs) (rv : Int) :
    countByReviewer st' rv = countByReviewer st rv +
      (rs.filter (fun r => respReviewer r == SqlValue.intV rv)).length := by
  unfold countByReviewer
  rw [h, List.filter_append, List.length_append]

theorem step_preserves_caps (cfg : AppConfig) (st st' : DBState) (h : Step cfg st st')
    (hdoc : ∀ d : Int, countByDocument st d ≤ cfg.MAX_REVIEWS_PER_DOCUMENT)
    (hrev : ∀ rv : Int, countByReviewer st rv ≤ cfg.MAX_REVIEWS_PER_REVIEWER) :
    (∀ d : Int, countByDocument st' d ≤ cfg.MAX_REVIEWS_PER_DOCUMENT) ∧
    (∀ rv : Int, countByReviewer st' rv ≤ cfg.MAX_REVIEWS_PER_REVIEWER) := by
  cases h
  case importData cs cr hi =>
    have hresp := (importStarterData_frame st st' cs cr hi).1
    constructor
    · intro d
      rw [countByDocument_append st st' [] (by rw [hresp]; simp) d]
      simpa using hdoc d
    · intro rv
      rw [countByReviewer_append st st' [] (by rw [hresp]; simp) rv]
      simpa using hrev rv
  case submit rv nm d al sc be cm so hsub =>
    unfold submitResponse at hsub
    split at hsub
    · rename_i hcond
      simp only [Bool.and_eq_true, decide_eq_true_eq] at hcond
      obtain ⟨hcd, hcr⟩ := hcond
      have hresp : st'.tbl_response = st.tbl_response ++
          [[SqlValue.intV rv, SqlValue.strV nm, SqlValue.intV d, SqlValue.intV al,
            SqlValue.intV sc, SqlValue.intV be, SqlValue.strV cm, SqlValue.intV so]] := by
        simpa using insertRow_rows st .response _ st' hsub .response
      constructor
      · intro d'
        rw [countByDocument_append st st' _ hresp d']
        by_cases hd : d' = d
        · subst hd
          have hone : (List.filter (fun r => respDocument r == SqlValue.intV d')
              [[SqlValue.intV rv, SqlValue.strV nm, SqlValue.intV d', SqlValue.intV al,
                SqlValue.intV sc, SqlValue.intV be, SqlValue.strV cm, SqlValue.intV so]]).length = 1 := by
            simp [respDocument]
          rw [hone]
          omega
        · have hzero : (List.filter (fun r => respDocument r == SqlValue.intV d')
              [[SqlValue.intV rv, SqlValue.strV nm, SqlValue.intV d, SqlValue.intV al,
                SqlValue.intV sc, SqlValue.intV be, SqlValue.strV cm, SqlValue.intV so]]).length = 0 := by
            simp [respDocument]
            omega
          rw [hzero]
          simpa using hdoc d'
      · intro rv'
        rw [countByReviewer_append st st' _ hresp rv']
        by_cases hr : rv' = rv
        · subst hr
          have hone : (List.filter (fun r => respReviewer r == SqlValue.intV rv')
              [[SqlValue.intV rv', SqlValue.strV nm, SqlValue.intV d, SqlValue.intV al,
                SqlValue.intV sc, SqlValue.intV be, SqlValue.strV cm, SqlValue.intV so]]).length = 1 := by
            simp [respReviewer]
          rw [hone]
          omega
        · have hzero : (List.filter (fun r => respReviewer r == SqlValue.intV rv')
              [[SqlValue.intV rv, SqlValue.strV nm, SqlValue.intV d, SqlValue.intV al,
                SqlValue.intV sc, SqlValue.intV be, SqlValue.strV cm, SqlValue.intV so]]).length = 0 := by
            simp [respReviewer]
            omega
          rw [hzero]
          simpa using hrev rv'
    · cases hsub
  case declareConflict rv d c hc =>
    unfold logConflict at hc
    split at hc
    · have hresp : st'.tbl_response = st.tbl_response := by
        simpa using insertRow_rows st .log _ st' hc .response
      constructor
      · intro d'
        rw [countByDocument_append st st' [] (by rw [hresp]; simp) d']
        simpa using hdoc d'
      · intro rv'
        rw [countByReviewer_append st st' [] (by rw [hresp]; simp) rv']
        simpa using hrev rv'
    · cases hc
  case dump =>
    simp only [exportLoop_fst]
    exact ⟨hdoc, hrev⟩

theorem stepStar_preserves_caps (cfg : AppConfig) (st st' : DBState)
    (h : StepStar cfg st st')
    (hdoc : ∀ d : Int, countByDocument st d ≤ cfg.MAX_REVIEWS_PER_DOCUMENT)
    (hrev : ∀ rv : Int, countByReviewer st rv ≤ cfg.MAX_REVIEWS_PER_REVIEWER) :
    (∀ d : Int, countByDocument st' d ≤ cfg.MAX_REVIEWS_PER_DOCUMENT) ∧
    (∀ rv : Int, countByReviewer st' rv ≤ cfg.MAX_REVIEWS_PER_REVIEWER) := by
  induction h
  case refl => exact ⟨hdoc, hrev⟩
  case tail hstar hstep ih =>
    exact step_preserves_caps cfg _ _ hstep ih.1 ih.2

theorem logPairCount_zero (st : DBState) (rv d : Int)
    (h : conflictLogged st rv d = false) : logPairCount st rv d = 0 := by
  unfold conflictLogged at h
  unfold logPairCount
  simp only [List.any_eq_false] at h
  simp only [List.length_eq_zero, List.filter_eq_nil_iff]
  exact h

theorem logPairCount_append (st st' : DBState) (rs : List Row)
    (h : st'.tbl_log = st.tbl_log ++ rs) (rv d : Int) :
    logPairCount st' rv d = logPairCount st rv d +
      (rs.filter (fun r => logReviewer r == SqlValue.intV rv &&
        logDocument r == SqlValue.intV d)).length := by
  unfold logPairCount
  rw [h, List.filter_append, List.length_append]

theorem step_preserves_logPair (cfg : AppConfig) (st st' : DBState)
    (h : Step cfg st st') (hinv : ∀ rv d : Int, logPairCount st rv d ≤ 1) :
    ∀ rv d : Int, logPairCount st' rv d ≤ 1 := by
  cases h
  case importData cs cr hi =>
    have hlog := (importStarterData_frame st st' cs cr hi).2
    intro rv d
    rw [logPairCount_append st st' [] (by rw [hlog]; simp) rv d]
    simpa using hinv rv d
  case submit rv nm d al sc be cm so hsub =>
    unfold submitResponse at hsub
    split at hsub
    · have hlog : st'.tbl_log = st.tbl_log := by
        simpa using insertRow_rows st .response _ st' hsub .log
      intro rv' d'
      rw [logPairCount_append st st' [] (by rw [hlog]; simp) rv' d']
      simpa using hinv rv' d'
    · cases hsub
  case declareConflict rv d c hc =>
    unfold logConflict at hc
    split at hc
    · rename_i hfetch
      have h0 : logPairCount st rv d = 0 :=
        logPairCount_zero st rv d (fetchNext_not_conflicted st rv d hfetch)
      have hlog : st'.tbl_log = st.tbl_log ++
          [[SqlValue.intV rv, SqlValue.intV d, SqlValue.strV c]] := by
        simpa using insertRow_rows st .log _ st' hc .log
      intro rv' d'
      rw [logPairCount_append st st' _ hlog rv' d']
      by_cases hpair : rv' = rv ∧ d' = d
      · obtain ⟨rfl, rfl⟩ := hpair
        have hone : (List.filter (fun r => logReviewer r == SqlValue.intV rv' &&
            logDocument r == SqlValue.intV d')
            [[SqlValue.intV rv', SqlValue.intV d', SqlValue.strV c]]).length = 1 := by
          simp [logReviewer, logDocument]
        rw [hone]
        omega
      · have hzero : (List.filter (fun r => logReviewer r == SqlValue.intV rv' &&
            logDocument r == SqlValue.intV d')
            [[SqlValue.intV rv, SqlValue.intV d, SqlValue.strV c]]).length = 0 := by
          simp [logReviewer, logDocument]
          intro h1 h2
          exact hpair ⟨h1.symm, h2.symm⟩
        rw [hzero]
        simpa using hinv rv' d'
    · cases hc
  case dump =>
    intro rv d
    simp only [exportLoop_fst]
    exact hinv rv d

theorem stepStar_preserves_logPair (cfg : AppConfig) (st st' : DBState)
    (h : StepStar cfg st st') (hinv : ∀ rv d : Int, logPairCount st rv d ≤ 1) :
    ∀ rv d : Int, logPairCount st' rv d ≤ 1 := by
  induction h
  case refl => exact hinv
  case tail hstar hstep ih =>
    exact step_preserves_logPair cfg _ _ hstep ih

/-- C2: in every database state reachable by the application's operations,
the number of `tbl_response` rows for any document is at most
`MAX_REVIEWS_PER_DOCUMENT` and the number for any reviewer is at most
`MAX_REVIEWS_PER_REVIEWER`; every operation preserves the two caps. -/
theorem c2_review_caps (cfg : AppConfig) (st : DBState) (h : Reachable cfg st) :
    (∀ d : Int, countByDocument st d ≤ cfg.MAX_REVIEWS_PER_DOCUMENT) ∧
    (∀ rv : Int, countByReviewer st rv ≤ cfg.MAX_REVIEWS_PER_REVIEWER) :=
  stepStar_preserves_caps cfg buildDatabase st h
    (fun d => by simp [countByDocument, buildDatabase])
    (fun rv => by simp [countByReviewer, buildDatabase])

theorem c2_review_caps_witness :
    countByDocument buildDatabase 0 ≤ 2 ∧ countByReviewer buildDatabase 0 ≤ 3 := by
  have h := c2_review_caps ⟨2, 3⟩ buildDatabase (StepStar.refl buildDatabase)
  exact ⟨h.1 0, h.2 0⟩

/-- C4: in every reachable database state, `tbl_log` holds at most one row
per (reviewer_id, document_id) pair. -/
theorem c4_log_one_row_per_pair (cfg : AppConfig) (st : DBState)
    (h : Reachable cfg st) (rv d : Int) : logPairCount st rv d ≤ 1 :=
  stepStar_preserves_logPair cfg buildDatabase st h
    (fun rv' d' => by simp [logPairCount, buildDatabase]) rv d

theorem c4_log_one_row_per_pair_witness : logPairCount dbConflicted 1 5 ≤ 1 :=
  c4_log_one_row_per_pair ⟨1, 1⟩ dbConflicted
    (StepStar.tail buildDatabase dbStarter dbConflicted
      (StepStar.tail buildDatabase buildDatabase dbStarter
        (StepStar.refl buildDatabase)
        (Step.importData buildDatabase dbStarter starterSourceCsv starterReviewerCsv
          (by decide)))
      (Step.declareConflict dbStarter dbConflicted 1 5 "advisor" (by decide)))
    1 5
